import Mathlib

/-!
Shallow embedding of the OpenTelemetry C++ batch span export pipeline:
`sdk/src/trace/batch_span_processor.cc` (sync build, `ENABLE_ASYNC_EXPORT`
off) and `exporters/memory/.../in_memory_span_exporter.h`.

Concurrency is modelled as a sequential interleaving: each public entry
point runs to completion, and the points where the worker thread is woken
(condition-variable notifications, the join in `Shutdown`) are modelled by
running the worker's code (`Export`, `DrainQueue`) at that point.
Condition-variable notifications themselves carry no sequential content.
-/

/-- A span record handed to the pipeline.  The processor treats records as
opaque tokens; the in-memory exporter distinguishes `SpanData` instances
(which its `dynamic_cast` accepts) from other `Recordable` subclasses. -/
inductive Recordable where
  | spanData (payload : Nat)
  | otherRecordable (payload : Nat)
deriving DecidableEq

/-- The two values of `sdk::common::ExportResult` used by the sources. -/
inductive ExportResult where
  | kSuccess
  | kFailure
deriving DecidableEq

/-- The `dynamic_cast<sdk::trace::SpanData *>` performed by the in-memory
exporter's export loop: succeeds exactly on `SpanData` recordables. -/
def toSpanData : Recordable → Option Nat
  | .spanData p => some p
  | .otherRecordable _ => none

/-- Modelled from the spec: the store `InMemorySpanData` (its source file is
not part of this snapshot; only the spec describes it).  It is a bounded
in-memory store of span records with capacity `bufferSize`. -/
structure InMemorySpanData where
  bufferSize : Nat
  spans : List Nat
deriving DecidableEq

/-- Modelled from the spec: `add(record)` pushes the record into the store,
dropping the oldest records when the capacity is exceeded. -/
def InMemorySpanData.Add (d : InMemorySpanData) (s : Nat) : InMemorySpanData :=
  let spans := d.spans ++ [s]
  { d with spans := spans.drop (spans.length - d.bufferSize) }

/-- State of an `InMemorySpanExporter`: the shared store and the shutdown
flag (the spin lock guarding the flag has no sequential content). -/
structure InMemorySpanExporter where
  data : InMemorySpanData
  is_shutdown : Bool
deriving DecidableEq

/-- Code `InMemorySpanExporter::Export` (sync): if shut down, fail; otherwise
walk the batch, `dynamic_cast` each recordable to `SpanData`, add the
non-null ones to the store, and return success. -/
def InMemorySpanExporter.Export (e : InMemorySpanExporter)
    (recordables : List Recordable) : InMemorySpanExporter × ExportResult :=
  if e.is_shutdown then (e, .kFailure)
  else
    ({ e with
        data := recordables.foldl
          (fun d r =>
            match toSpanData r with
            | some span => d.Add span
            | none => d) e.data },
      .kSuccess)

/-- Code `InMemorySpanExporter::Shutdown`: set the flag, return true. -/
def InMemorySpanExporter.Shutdown (e : InMemorySpanExporter) :
    InMemorySpanExporter × Bool :=
  ({ e with is_shutdown := true }, true)

/-- State of a `BatchSpanProcessor` (sync build) together with the pieces of
its environment the claims need: the batches already handed to the exporter
(flattened, in order) and a count of calls to the exporter's `Shutdown`.
`exporter_shutdown_result` is the (fixed) value the owned exporter's
`Shutdown` returns. -/
structure BatchState where
  max_queue_size : Nat
  max_export_batch_size : Nat
  buffer : List Recordable
  is_shutdown : Bool
  is_force_flush_pending : Bool
  is_force_flush_notified : Bool
  is_force_wakeup_background_worker : Bool
  worker_joinable : Bool
  exported : List Recordable
  exporter_shutdown_calls : Nat
  exporter_shutdown_result : Bool
deriving DecidableEq

/-- Code `BatchSpanProcessor::OnEnd`: return at once when shut down; try to
add to the ring buffer (`CircularBuffer::Add` fails when full); after a
successful add, notify the worker cv iff the observed occupancy is at least
`max_queue_size / 2` or at least `max_export_batch_size`.  Returns the new
state and whether the worker cv was notified. -/
def OnEnd (s : BatchState) (span : Recordable) : BatchState × Bool :=
  if s.is_shutdown then (s, false)
  else if s.max_queue_size ≤ s.buffer.length then (s, false)
  else
    let s1 := { s with buffer := s.buffer ++ [span] }
    let buffer_size := s1.buffer.length
    if s1.max_queue_size / 2 ≤ buffer_size ∨
        s1.max_export_batch_size ≤ buffer_size then
      (s1, true)
    else (s1, false)

/-- Code `BatchSpanProcessor::NotifyCompletion` (sync build): on a
force-flush iteration set `is_force_flush_notified` and notify the flush cv
(the notification itself has no sequential content). -/
def NotifyCompletion (notify_force_flush : Bool) (s : BatchState) :
    BatchState :=
  if notify_force_flush then { s with is_force_flush_notified := true } else s

/-- Result of one iteration of the do/while loop in
`BatchSpanProcessor::Export`: the state after the iteration, whether the
loop breaks, and the `num_records_to_export` the iteration computed. -/
structure ExportStep where
  state : BatchState
  breaks : Bool
  num_records_to_export : Nat
deriving DecidableEq

/-- One iteration of the do/while loop of `BatchSpanProcessor::Export`
(sync build): exchange `is_force_flush_pending` to false, compute
`num_records_to_export` (everything on a flush iteration, otherwise at most
`max_export_batch_size`); if zero, call `NotifyCompletion` and break;
otherwise consume that many records from the buffer front, hand them to the
exporter, and call `NotifyCompletion`. -/
def exportBody (s : BatchState) : ExportStep :=
  let notify_force_flush := s.is_force_flush_pending
  let s1 := { s with is_force_flush_pending := false }
  let num_records_to_export :=
    if notify_force_flush then s1.buffer.length
    else if s1.max_export_batch_size ≤ s1.buffer.length then
      s1.max_export_batch_size
    else s1.buffer.length
  if num_records_to_export = 0 then
    ⟨NotifyCompletion notify_force_flush s1, true, 0⟩
  else
    let spans_arr := s1.buffer.take num_records_to_export
    let s2 := { s1 with
      buffer := s1.buffer.drop num_records_to_export,
      exported := s1.exported ++ spans_arr }
    ⟨NotifyCompletion notify_force_flush s2, false, num_records_to_export⟩

/-- The do/while loop of `BatchSpanProcessor::Export`, iterated with
explicit fuel: repeat the loop body until an iteration breaks.  Every
non-breaking iteration removes at least one record from the buffer, so
`buffer.length + 1` fuel (supplied by `Export`) always reaches the break. -/
def ExportAux : Nat → BatchState → BatchState
  | 0, s => s
  | fuel + 1, s =>
    let step := exportBody s
    if step.breaks then step.state else ExportAux fuel step.state

/-- Code `BatchSpanProcessor::Export` (sync build). -/
def Export (s : BatchState) : BatchState :=
  ExportAux (s.buffer.length + 1) s

/-- The body of `BatchSpanProcessor::DrainQueue`, iterated with explicit
fuel (the C++ loop is unbounded; `DrainQueue` supplies fuel that is proved
sufficient whenever `max_export_batch_size ≥ 1`): exit when the buffer is
empty and no force flush is pending, otherwise run one `Export` cycle and
re-check. -/
def DrainQueueAux : Nat → BatchState → BatchState
  | 0, s => s
  | fuel + 1, s =>
    if s.buffer.isEmpty && !s.is_force_flush_pending then s
    else DrainQueueAux fuel (Export s)

/-- Code `BatchSpanProcessor::DrainQueue`. -/
def DrainQueue (s : BatchState) : BatchState :=
  DrainQueueAux (s.buffer.length + 2) s

/-- Code `BatchSpanProcessor::ForceFlush`, sequential interleaving of the
indefinite-timeout path (timeout sentinel 0): after the shutdown check the
caller sets `is_force_flush_pending`; the wait predicate sets
`is_force_wakeup_background_worker` and notifies the worker, which wakes,
clears the wakeup flag and runs `Export`; the caller's wait then succeeds,
it exchanges `is_force_flush_pending` to false, observes
`is_force_flush_notified`, clears it and returns true. -/
def ForceFlush (s : BatchState) : BatchState × Bool :=
  if s.is_shutdown then (s, false)
  else
    let s1 := { s with is_force_flush_pending := true }
    let s2 := { s1 with is_force_wakeup_background_worker := true }
    let s3 := Export { s2 with is_force_wakeup_background_worker := false }
    let s4 := { s3 with
      is_force_flush_pending := false,
      is_force_flush_notified := false }
    (s4, true)

/-- Code `BatchSpanProcessor::Shutdown` (sync build), sequential model:
exchange `is_shutdown` to true remembering the old value; if the worker
thread is joinable, wake it and join it — the joined worker observes
shutdown, runs `DrainQueue` and exits.  Only when `is_shutdown` was not
already set is the exporter's `Shutdown` called (its return value is the
call's result); otherwise return true.  Timeout arithmetic has no
sequential content and is omitted. -/
def Shutdown (s : BatchState) : BatchState × Bool :=
  let already_shutdown := s.is_shutdown
  let s1 := { s with is_shutdown := true }
  let s2 :=
    if s1.worker_joinable then
      let s3 := { s1 with is_force_wakeup_background_worker := true }
      let s4 := DrainQueue
        { s3 with is_force_wakeup_background_worker := false }
      { s4 with worker_joinable := false }
    else s1
  if already_shutdown = false then
    ({ s2 with exporter_shutdown_calls := s2.exporter_shutdown_calls + 1 },
      s2.exporter_shutdown_result)
  else (s2, true)

/-- Code `BatchSpanProcessor::~BatchSpanProcessor`: run `Shutdown` (with the
default timeout) iff `is_shutdown` is still false. -/
def destructor (s : BatchState) : BatchState :=
  if s.is_shutdown = false then (Shutdown s).1 else s

/-- Iterate `Shutdown` `k` times (for the idempotence claim). -/
def shutdownIter : Nat → BatchState → BatchState
  | 0, s => s
  | k + 1, s => shutdownIter k (Shutdown s).1

/-- A sample running-processor state used by the witnesses. -/
def sampleState : BatchState :=
  { max_queue_size := 4
    max_export_batch_size := 2
    buffer := [Recordable.spanData 1, Recordable.spanData 2]
    is_shutdown := false
    is_force_flush_pending := false
    is_force_flush_notified := false
    is_force_wakeup_background_worker := false
    worker_joinable := true
    exported := []
    exporter_shutdown_calls := 0
    exporter_shutdown_result := true }

/-- A sample already-shut-down processor state used by the witnesses. -/
def sampleShutdownState : BatchState :=
  { sampleState with is_shutdown := true, worker_joinable := false }

/-- A sample state with an empty buffer and a pending force flush, used by
the witnesses. -/
def sampleEmptyFlushState : BatchState :=
  { sampleState with buffer := [], is_force_flush_pending := true }

/-- A sample in-memory exporter used by the witnesses. -/
def sampleExporter : InMemorySpanExporter :=
  { data := { bufferSize := 100, spans := [] }, is_shutdown := false }

theorem NotifyCompletion_buffer (b : Bool) (s : BatchState) :
    (NotifyCompletion b s).buffer = s.buffer := by
  unfold NotifyCompletion
  split <;> rfl

theorem NotifyCompletion_exported (b : Bool) (s : BatchState) :
    (NotifyCompletion b s).exported = s.exported := by
  unfold NotifyCompletion
  split <;> rfl

theorem NotifyCompletion_pending (b : Bool) (s : BatchState) :
    (NotifyCompletion b s).is_force_flush_pending =
      s.is_force_flush_pending := by
  unfold NotifyCompletion
  split <;> rfl

theorem NotifyCompletion_is_shutdown (b : Bool) (s : BatchState) :
    (NotifyCompletion b s).is_shutdown = s.is_shutdown := by
  unfold NotifyCompletion
  split <;> rfl

theorem NotifyCompletion_worker_joinable (b : Bool) (s : BatchState) :
    (NotifyCompletion b s).worker_joinable = s.worker_joinable := by
  unfold NotifyCompletion
  split <;> rfl

theorem NotifyCompletion_max_queue (b : Bool) (s : BatchState) :
    (NotifyCompletion b s).max_queue_size = s.max_queue_size := by
  unfold NotifyCompletion
  split <;> rfl

theorem NotifyCompletion_max_batch (b : Bool) (s : BatchState) :
    (NotifyCompletion b s).max_export_batch_size =
      s.max_export_batch_size := by
  unfold NotifyCompletion
  split <;> rfl

theorem NotifyCompletion_calls (b : Bool) (s : BatchState) :
    (NotifyCompletion b s).exporter_shutdown_calls =
      s.exporter_shutdown_calls := by
  unfold NotifyCompletion
  split <;> rfl

theorem NotifyCompletion_result (b : Bool) (s : BatchState) :
    (NotifyCompletion b s).exporter_shutdown_result =
      s.exporter_shutdown_result := by
  unfold NotifyCompletion
  split <;> rfl

theorem exportBody_num (s : BatchState) :
    (exportBody s).num_records_to_export =
      if s.is_force_flush_pending = true then s.buffer.length
      else min s.buffer.length s.max_export_batch_size := by
  unfold exportBody
  by_cases hp : s.is_force_flush_pending = true <;>
    simp only [hp, if_true, if_false, Bool.false_eq_true] <;>
    split_ifs <;>
    simp_all <;> omega

theorem exportBody_state_pending (s : BatchState) :
    (exportBody s).state.is_force_flush_pending = false := by
  unfold exportBody
  dsimp only
  split_ifs <;> simp [NotifyCompletion_pending]

theorem exportBody_state_is_shutdown (s : BatchState) :
    (exportBody s).state.is_shutdown = s.is_shutdown := by
  unfold exportBody
  dsimp only
  split_ifs <;> simp [NotifyCompletion_is_shutdown]

theorem exportBody_state_worker_joinable (s : BatchState) :
    (exportBody s).state.worker_joinable = s.worker_joinable := by
  unfold exportBody
  dsimp only
  split_ifs <;> simp [NotifyCompletion_worker_joinable]

theorem exportBody_state_max_queue (s : BatchState) :
    (exportBody s).state.max_queue_size = s.max_queue_size := by
  unfold exportBody
  dsimp only
  split_ifs <;> simp [NotifyCompletion_max_queue]

theorem exportBody_state_max_batch (s : BatchState) :
    (exportBody s).state.max_export_batch_size =
      s.max_export_batch_size := by
  unfold exportBody
  dsimp only
  split_ifs <;> simp [NotifyCompletion_max_batch]

theorem exportBody_state_calls (s : BatchState) :
    (exportBody s).state.exporter_shutdown_calls =
      s.exporter_shutdown_calls := by
  unfold exportBody
  dsimp only
  split_ifs <;> simp [NotifyCompletion_calls]

theorem exportBody_state_result (s : BatchState) :
    (exportBody s).state.exporter_shutdown_result =
      s.exporter_shutdown_result := by
  unfold exportBody
  dsimp only
  split_ifs <;> simp [NotifyCompletion_result]

theorem exportBody_breaks_iff (s : BatchState) :
    (exportBody s).breaks = true ↔
      (exportBody s).num_records_to_export = 0 := by
  unfold exportBody
  dsimp only
  split_ifs <;> simp_all

theorem exportBody_break_state (s : BatchState)
    (h : (exportBody s).breaks = true) :
    (exportBody s).state.buffer = s.buffer ∧
      (exportBody s).state.exported = s.exported ∧
      (s.is_force_flush_pending = true →
        (exportBody s).state.is_force_flush_notified = true) := by
  unfold exportBody at h ⊢
  dsimp only at h ⊢
  split_ifs at h ⊢
  all_goals
    first
      | exact Bool.noConfusion h
      | exact ⟨by simp [NotifyCompletion_buffer],
          by simp [NotifyCompletion_exported],
          fun hp => by simp [NotifyCompletion, hp]⟩

theorem exportBody_cons_state (s : BatchState)
    (h : (exportBody s).breaks = false) :
    (exportBody s).state.buffer =
        s.buffer.drop (exportBody s).num_records_to_export ∧
      (exportBody s).state.exported =
        s.exported ++ s.buffer.take (exportBody s).num_records_to_export ∧
      (s.is_force_flush_pending = true →
        (exportBody s).state.is_force_flush_notified = true) := by
  unfold exportBody at h ⊢
  dsimp only at h ⊢
  split_ifs at h ⊢
  all_goals
    first
      | exact Bool.noConfusion h
      | exact ⟨by simp [NotifyCompletion_buffer],
          by simp [NotifyCompletion_exported],
          fun hp => by simp [NotifyCompletion, hp]⟩

theorem NotifyCompletion_notified (b : Bool) (s : BatchState) :
    (NotifyCompletion b s).is_force_flush_notified =
      (b || s.is_force_flush_notified) := by
  unfold NotifyCompletion
  split <;> simp_all

theorem exportBody_state_notified (s : BatchState) :
    (exportBody s).state.is_force_flush_notified =
      (s.is_force_flush_pending || s.is_force_flush_notified) := by
  unfold exportBody
  dsimp only
  split_ifs <;> simp [NotifyCompletion_notified]

theorem BatchState.eta_pending (s : BatchState)
    (h : s.is_force_flush_pending = false) :
    { s with is_force_flush_pending := false } = s := by
  cases s
  simp_all

theorem BatchState.eta_shutdown (s : BatchState)
    (h : s.is_shutdown = true) :
    { s with is_shutdown := true } = s := by
  cases s
  simp_all

theorem ExportAux_preserves (fuel : Nat) (s : BatchState) :
    (ExportAux fuel s).is_shutdown = s.is_shutdown ∧
      (ExportAux fuel s).worker_joinable = s.worker_joinable ∧
      (ExportAux fuel s).max_queue_size = s.max_queue_size ∧
      (ExportAux fuel s).max_export_batch_size = s.max_export_batch_size ∧
      (ExportAux fuel s).exporter_shutdown_calls =
        s.exporter_shutdown_calls ∧
      (ExportAux fuel s).exporter_shutdown_result =
        s.exporter_shutdown_result := by
  induction fuel generalizing s with
  | zero => exact ⟨rfl, rfl, rfl, rfl, rfl, rfl⟩
  | succ f ih =>
    unfold ExportAux
    dsimp only
    split
    · exact ⟨exportBody_state_is_shutdown s,
        exportBody_state_worker_joinable s, exportBody_state_max_queue s,
        exportBody_state_max_batch s, exportBody_state_calls s,
        exportBody_state_result s⟩
    · obtain ⟨a, b, c, d, e, g⟩ := ih (exportBody s).state
      exact ⟨a.trans (exportBody_state_is_shutdown s),
        b.trans (exportBody_state_worker_joinable s),
        c.trans (exportBody_state_max_queue s),
        d.trans (exportBody_state_max_batch s),
        e.trans (exportBody_state_calls s),
        g.trans (exportBody_state_result s)⟩

theorem ExportAux_pending (fuel : Nat) (s : BatchState) :
    (ExportAux (fuel + 1) s).is_force_flush_pending = false := by
  induction fuel generalizing s with
  | zero =>
    unfold ExportAux
    dsimp only
    split
    · exact exportBody_state_pending s
    · exact exportBody_state_pending s
  | succ f ih =>
    unfold ExportAux
    dsimp only
    split
    · exact exportBody_state_pending s
    · exact ih (exportBody s).state

theorem Export_pending (s : BatchState) :
    (Export s).is_force_flush_pending = false := by
  unfold Export
  exact ExportAux_pending s.buffer.length s

theorem ExportAux_empty_fields (fuel : Nat) (s : BatchState)
    (hb : s.buffer = []) (hp : s.is_force_flush_pending = false) :
    (ExportAux fuel s).exported = s.exported ∧
      (ExportAux fuel s).buffer = [] ∧
      (ExportAux fuel s).is_force_flush_notified =
        s.is_force_flush_notified := by
  cases fuel with
  | zero => exact ⟨rfl, hb, rfl⟩
  | succ f =>
    have hbr : (exportBody s).breaks = true := by
      rw [exportBody_breaks_iff, exportBody_num, hp, hb]
      simp
    unfold ExportAux
    dsimp only
    rw [hbr]
    simp only [if_true]
    obtain ⟨a, b, c⟩ := exportBody_break_state s hbr
    refine ⟨b, a.trans hb, ?_⟩
    rw [exportBody_state_notified, hp]
    simp

theorem Export_flush (s : BatchState)
    (hp : s.is_force_flush_pending = true) :
    (Export s).exported = s.exported ++ s.buffer ∧
      (Export s).buffer = [] ∧
      (Export s).is_force_flush_notified = true := by
  unfold Export
  cases hb : s.buffer with
  | nil =>
    have hbr : (exportBody s).breaks = true := by
      rw [exportBody_breaks_iff, exportBody_num, hp, hb]
      simp
    unfold ExportAux
    dsimp only
    rw [hbr]
    simp only [if_true]
    obtain ⟨a, b, c⟩ := exportBody_break_state s hbr
    refine ⟨by rw [b]; simp, a.trans hb, ?_⟩
    rw [exportBody_state_notified, hp]
    simp
  | cons x xs =>
    have hnum : (exportBody s).num_records_to_export = s.buffer.length := by
      rw [exportBody_num, hp]
      simp
    have hbr : (exportBody s).breaks = false := by
      cases hcase : (exportBody s).breaks with
      | false => rfl
      | true =>
        have hz := (exportBody_breaks_iff s).mp hcase
        rw [hnum, hb] at hz
        simp at hz
    obtain ⟨hbuf, hexp, _⟩ := exportBody_cons_state s hbr
    have hstep_buffer : (exportBody s).state.buffer = [] := by
      rw [hbuf, hnum, List.drop_length]
    have hstep_pending := exportBody_state_pending s
    have hstep_exported : (exportBody s).state.exported =
        s.exported ++ s.buffer := by
      rw [hexp, hnum, List.take_length]
    have hstep_notified : (exportBody s).state.is_force_flush_notified =
        true := by
      rw [exportBody_state_notified, hp]
      simp
    unfold ExportAux
    dsimp only
    rw [hbr]
    simp only [Bool.false_eq_true, if_false]
    rw [hb] at hstep_exported
    obtain ⟨e1, e2, e3⟩ := ExportAux_empty_fields (x :: xs).length
      (exportBody s).state hstep_buffer hstep_pending
    exact ⟨e1.trans hstep_exported, e2, e3.trans hstep_notified⟩

theorem ExportAux_drains (fuel : Nat) (s : BatchState)
    (hlen : s.buffer.length < fuel)
    (hbatch : 1 ≤ s.max_export_batch_size) :
    (ExportAux fuel s).buffer = [] := by
  induction fuel generalizing s with
  | zero => omega
  | succ f ih =>
    unfold ExportAux
    dsimp only
    cases hbr : (exportBody s).breaks with
    | true =>
      simp only [if_true]
      have hnum := (exportBody_breaks_iff s).mp hbr
      rw [exportBody_num] at hnum
      obtain ⟨a, _, _⟩ := exportBody_break_state s hbr
      rw [a]
      by_cases hp : s.is_force_flush_pending = true
      · rw [hp] at hnum
        simp at hnum
        exact hnum
      · rw [if_neg hp] at hnum
        have : s.buffer.length = 0 := by
          rcases Nat.min_eq_zero_iff.mp hnum with h | h
          · exact h
          · omega
        exact List.length_eq_zero.mp this
    | false =>
      simp only [Bool.false_eq_true, if_false]
      have hnum_ne : (exportBody s).num_records_to_export ≠ 0 := by
        intro h0
        exact absurd ((exportBody_breaks_iff s).mpr h0) (by rw [hbr]; simp)
      have hnum_le : (exportBody s).num_records_to_export ≤
          s.buffer.length := by
        rw [exportBody_num]
        split_ifs <;> omega
      obtain ⟨hbuf, _, _⟩ := exportBody_cons_state s hbr
      apply ih
      · rw [hbuf, List.length_drop]
        omega
      · rw [exportBody_state_max_batch]
        exact hbatch

theorem Export_drains (s : BatchState)
    (hbatch : 1 ≤ s.max_export_batch_size) :
    (Export s).buffer = [] := by
  unfold Export
  exact ExportAux_drains (s.buffer.length + 1) s (by omega) hbatch

theorem Export_preserves (s : BatchState) :
    (Export s).is_shutdown = s.is_shutdown ∧
      (Export s).worker_joinable = s.worker_joinable ∧
      (Export s).max_queue_size = s.max_queue_size ∧
      (Export s).max_export_batch_size = s.max_export_batch_size ∧
      (Export s).exporter_shutdown_calls = s.exporter_shutdown_calls ∧
      (Export s).exporter_shutdown_result = s.exporter_shutdown_result := by
  unfold Export
  exact ExportAux_preserves (s.buffer.length + 1) s

theorem DrainQueueAux_preserves (fuel : Nat) (s : BatchState) :
    (DrainQueueAux fuel s).is_shutdown = s.is_shutdown ∧
      (DrainQueueAux fuel s).worker_joinable = s.worker_joinable ∧
      (DrainQueueAux fuel s).max_queue_size = s.max_queue_size ∧
      (DrainQueueAux fuel s).max_export_batch_size =
        s.max_export_batch_size ∧
      (DrainQueueAux fuel s).exporter_shutdown_calls =
        s.exporter_shutdown_calls ∧
      (DrainQueueAux fuel s).exporter_shutdown_result =
        s.exporter_shutdown_result := by
  induction fuel generalizing s with
  | zero => exact ⟨rfl, rfl, rfl, rfl, rfl, rfl⟩
  | succ f ih =>
    unfold DrainQueueAux
    split
    · exact ⟨rfl, rfl, rfl, rfl, rfl, rfl⟩
    · obtain ⟨a, b, c, d, e, g⟩ := ih (Export s)
      obtain ⟨a2, b2, c2, d2, e2, g2⟩ := Export_preserves s
      exact ⟨a.trans a2, b.trans b2, c.trans c2, d.trans d2, e.trans e2,
        g.trans g2⟩

theorem DrainQueue_preserves (s : BatchState) :
    (DrainQueue s).is_shutdown = s.is_shutdown ∧
      (DrainQueue s).worker_joinable = s.worker_joinable ∧
      (DrainQueue s).max_queue_size = s.max_queue_size ∧
      (DrainQueue s).max_export_batch_size = s.max_export_batch_size ∧
      (DrainQueue s).exporter_shutdown_calls = s.exporter_shutdown_calls ∧
      (DrainQueue s).exporter_shutdown_result =
        s.exporter_shutdown_result := by
  unfold DrainQueue
  exact DrainQueueAux_preserves (s.buffer.length + 2) s

theorem DrainQueue_exit (s : BatchState)
    (hbatch : 1 ≤ s.max_export_batch_size) :
    (DrainQueue s).buffer = [] ∧
      (DrainQueue s).is_force_flush_pending = false := by
  unfold DrainQueue
  by_cases hc : (s.buffer.isEmpty && !s.is_force_flush_pending) = true
  · have h1 : s.buffer = [] := by
      simp only [Bool.and_eq_true, List.isEmpty_iff] at hc
      exact hc.1
    have h2 : s.is_force_flush_pending = false := by
      simp only [Bool.and_eq_true, Bool.not_eq_true'] at hc
      exact hc.2
    unfold DrainQueueAux
    rw [if_pos hc]
    exact ⟨h1, h2⟩
  · unfold DrainQueueAux
    rw [if_neg hc]
    have hbuf := Export_drains s hbatch
    have hpend := Export_pending s
    have hcond : ((Export s).buffer.isEmpty &&
        !(Export s).is_force_flush_pending) = true := by
      rw [hbuf, hpend]
      simp
    unfold DrainQueueAux
    rw [if_pos hcond]
    exact ⟨hbuf, hpend⟩

theorem DrainQueue_id (s : BatchState) (hb : s.buffer = [])
    (hp : s.is_force_flush_pending = false) :
    DrainQueue s = s := by
  unfold DrainQueue DrainQueueAux
  rw [if_pos (by rw [hb, hp]; simp)]

theorem DrainQueue_is_shutdown (s : BatchState) :
    (DrainQueue s).is_shutdown = s.is_shutdown :=
  (DrainQueue_preserves s).1

theorem DrainQueue_worker_joinable (s : BatchState) :
    (DrainQueue s).worker_joinable = s.worker_joinable :=
  (DrainQueue_preserves s).2.1

theorem DrainQueue_max_batch (s : BatchState) :
    (DrainQueue s).max_export_batch_size = s.max_export_batch_size :=
  (DrainQueue_preserves s).2.2.2.1

theorem DrainQueue_calls (s : BatchState) :
    (DrainQueue s).exporter_shutdown_calls = s.exporter_shutdown_calls :=
  (DrainQueue_preserves s).2.2.2.2.1

theorem DrainQueue_result (s : BatchState) :
    (DrainQueue s).exporter_shutdown_result = s.exporter_shutdown_result :=
  (DrainQueue_preserves s).2.2.2.2.2

theorem Shutdown_flags (s : BatchState) :
    (Shutdown s).1.is_shutdown = true ∧
      (Shutdown s).1.worker_joinable = false := by
  unfold Shutdown
  dsimp only
  split_ifs with h1 h2 <;>
    simp_all [DrainQueue_is_shutdown, DrainQueue_worker_joinable]

theorem Shutdown_of_shutdown (t : BatchState) (hs : t.is_shutdown = true)
    (hj : t.worker_joinable = false) :
    Shutdown t = (t, true) := by
  cases t
  dsimp only at hs hj
  subst hs
  subst hj
  simp [Shutdown]

theorem Shutdown_calls_eq (s : BatchState) :
    (Shutdown s).1.exporter_shutdown_calls =
      (if s.is_shutdown = true then s.exporter_shutdown_calls
       else s.exporter_shutdown_calls + 1) := by
  unfold Shutdown
  dsimp only
  split_ifs with h1 h2 <;> simp_all [DrainQueue_calls]

theorem Shutdown_buffer_drained (s : BatchState)
    (hj : s.worker_joinable = true)
    (hbatch : 1 ≤ s.max_export_batch_size) :
    (Shutdown s).1.buffer = [] := by
  unfold Shutdown
  dsimp only
  rw [if_pos hj]
  have hd := DrainQueue_exit
    { s with
        is_shutdown := true,
        is_force_wakeup_background_worker := false }
    (by exact hbatch)
  split_ifs <;> exact hd.1

theorem shutdownIter_fixed (k : Nat) (t : BatchState)
    (hs : t.is_shutdown = true) (hj : t.worker_joinable = false) :
    shutdownIter k t = t := by
  induction k generalizing t with
  | zero => rfl
  | succ m ih =>
    unfold shutdownIter
    rw [Shutdown_of_shutdown t hs hj]
    exact ih t hs hj

/-- Claim C1: every `force_flush` call that returns true (in particular one
with the indefinite timeout sentinel 0, which is the path modelled by
`ForceFlush`) has handed every record that was in the ring buffer at the
moment of the call to the exporter before returning. -/
theorem claim_C1_forceFlush_delivers (s : BatchState)
    (h : s.is_shutdown = false) :
    (ForceFlush s).2 = true ∧
      ∀ r ∈ s.buffer, r ∈ (ForceFlush s).1.exported := by
  unfold ForceFlush
  rw [if_neg (by rw [h]; simp)]
  dsimp only
  refine ⟨rfl, fun r hr => ?_⟩
  obtain ⟨he, _, _⟩ := Export_flush
    { s with
        is_force_flush_pending := true,
        is_force_wakeup_background_worker := false } rfl
  rw [he]
  simp [hr]

/-- Witness for C1 at a concrete running state with two buffered records. -/
theorem claim_C1_witness :
    sampleState.is_shutdown = false ∧
      ((ForceFlush sampleState).2 = true ∧
        ∀ r ∈ sampleState.buffer, r ∈ (ForceFlush sampleState).1.exported) :=
  ⟨rfl, claim_C1_forceFlush_delivers sampleState rfl⟩

/-- Claim C2: `shutdown` is idempotent: `k ≥ 1` calls give the same state as
one call, every call after the first returns true with no side effects, and
the exporter's `Shutdown` is called at most once (and not at all by a call
that saw `is_shutdown` already set). -/
theorem claim_C2_shutdown_idempotent (s : BatchState) (k : Nat)
    (hk : 1 ≤ k) :
    shutdownIter k s = (Shutdown s).1 ∧
      Shutdown (Shutdown s).1 = ((Shutdown s).1, true) ∧
      (Shutdown s).1.exporter_shutdown_calls ≤
        s.exporter_shutdown_calls + 1 ∧
      (s.is_shutdown = true →
        (Shutdown s).1.exporter_shutdown_calls =
          s.exporter_shutdown_calls) := by
  obtain ⟨hs, hj⟩ := Shutdown_flags s
  refine ⟨?_, Shutdown_of_shutdown (Shutdown s).1 hs hj, ?_, ?_⟩
  · cases k with
    | zero => omega
    | succ m =>
      show shutdownIter m (Shutdown s).1 = (Shutdown s).1
      exact shutdownIter_fixed m (Shutdown s).1 hs hj
  · rw [Shutdown_calls_eq]
    split_ifs <;> omega
  · intro h
    rw [Shutdown_calls_eq, if_pos h]

/-- Witness for C2 at a concrete running state with three shutdown calls. -/
theorem claim_C2_witness :
    1 ≤ 3 ∧
      (shutdownIter 3 sampleState = (Shutdown sampleState).1 ∧
        Shutdown (Shutdown sampleState).1 = ((Shutdown sampleState).1, true) ∧
        (Shutdown sampleState).1.exporter_shutdown_calls ≤
          sampleState.exporter_shutdown_calls + 1 ∧
        (sampleState.is_shutdown = true →
          (Shutdown sampleState).1.exporter_shutdown_calls =
            sampleState.exporter_shutdown_calls)) :=
  ⟨by decide, claim_C2_shutdown_idempotent sampleState 3 (by decide)⟩

/-- Claim C3: once `is_shutdown` is set, `on_end` returns without touching
the buffer (the record is dropped) and `force_flush` returns false without
setting `is_force_flush_pending` or waiting (the state is unchanged). -/
theorem claim_C3_after_shutdown (s : BatchState) (r : Recordable)
    (h : s.is_shutdown = true) :
    OnEnd s r = (s, false) ∧ ForceFlush s = (s, false) := by
  constructor
  · unfold OnEnd
    rw [if_pos h]
  · unfold ForceFlush
    rw [if_pos h]

/-- Witness for C3 at a concrete shut-down state. -/
theorem claim_C3_witness :
    sampleShutdownState.is_shutdown = true ∧
      (OnEnd sampleShutdownState (Recordable.spanData 9) =
          (sampleShutdownState, false) ∧
        ForceFlush sampleShutdownState = (sampleShutdownState, false)) :=
  ⟨rfl, claim_C3_after_shutdown sampleShutdownState (Recordable.spanData 9) rfl⟩

/-- Claim C4: in every iteration of the export cycle the number of records
consumed and handed to the exporter is `buffer.size()` when a force flush
was pending at the start of the iteration and
`min(buffer.size(), max_export_batch_size)` otherwise; hence every
non-flush iteration hands at most `max_export_batch_size` records. -/
theorem claim_C4_batch_size (s : BatchState) :
    (exportBody s).num_records_to_export =
      (if s.is_force_flush_pending = true then s.buffer.length
       else min s.buffer.length s.max_export_batch_size) ∧
      (s.is_force_flush_pending = false →
        (exportBody s).num_records_to_export ≤ s.max_export_batch_size) ∧
      ((exportBody s).breaks = false →
        (exportBody s).state.exported =
          s.exported ++
            s.buffer.take (exportBody s).num_records_to_export ∧
          (exportBody s).state.buffer =
            s.buffer.drop (exportBody s).num_records_to_export) := by
  refine ⟨exportBody_num s, ?_, ?_⟩
  · intro hp
    rw [exportBody_num, if_neg (by rw [hp]; simp)]
    exact Nat.min_le_right _ _
  · intro hbr
    obtain ⟨a, b, _⟩ := exportBody_cons_state s hbr
    exact ⟨b, a⟩

/-- Witness for C4 at a concrete non-flush state (buffer 2, batch cap 2). -/
theorem claim_C4_witness :
    (exportBody sampleState).num_records_to_export =
      (if sampleState.is_force_flush_pending = true then
        sampleState.buffer.length
       else min sampleState.buffer.length
         sampleState.max_export_batch_size) ∧
      sampleState.is_force_flush_pending = false ∧
      (exportBody sampleState).num_records_to_export ≤
        sampleState.max_export_batch_size :=
  ⟨(claim_C4_batch_size sampleState).1, rfl,
    (claim_C4_batch_size sampleState).2.1 rfl⟩

/-- Claim C5: the export cycle loops until an iteration finds zero records
(`breaks` exactly when `num_records_to_export = 0`); the terminating
iteration hands nothing to the exporter (`exported` unchanged) and, when a
force flush was pending, sets `is_force_flush_notified` before breaking. -/
theorem claim_C5_loop_termination (s : BatchState) :
    ((exportBody s).breaks = true ↔
        (exportBody s).num_records_to_export = 0) ∧
      ((exportBody s).breaks = true →
        Export s = (exportBody s).state ∧
          (exportBody s).state.exported = s.exported ∧
          (s.is_force_flush_pending = true →
            (exportBody s).state.is_force_flush_notified = true)) := by
  refine ⟨exportBody_breaks_iff s, fun hbr => ?_⟩
  obtain ⟨hbuf, hexp, hnot⟩ := exportBody_break_state s hbr
  refine ⟨?_, hexp, hnot⟩
  unfold Export ExportAux
  dsimp only
  rw [hbr]
  simp

/-- Witness for C5 at a concrete state with an empty buffer and a pending
force flush: the iteration breaks, exports nothing, and notifies. -/
theorem claim_C5_witness :
    (exportBody sampleEmptyFlushState).breaks = true ∧
      (Export sampleEmptyFlushState = (exportBody sampleEmptyFlushState).state ∧
        (exportBody sampleEmptyFlushState).state.exported =
          sampleEmptyFlushState.exported ∧
        (sampleEmptyFlushState.is_force_flush_pending = true →
          (exportBody sampleEmptyFlushState).state.is_force_flush_notified =
            true)) :=
  ⟨rfl, (claim_C5_loop_termination sampleEmptyFlushState).2 rfl⟩

/-- Claim C6: an `on_end` whose record is added (not shut down, buffer not
full) appends the record, and notifies the worker cv iff the observed
occupancy reaches `max_queue_size / 2` or `max_export_batch_size`. -/
theorem claim_C6_wakeup_iff (s : BatchState) (r : Recordable)
    (hsd : s.is_shutdown = false)
    (hroom : s.buffer.length < s.max_queue_size) :
    (OnEnd s r).1.buffer = s.buffer ++ [r] ∧
      ((OnEnd s r).2 = true ↔
        (s.max_queue_size / 2 ≤ s.buffer.length + 1 ∨
          s.max_export_batch_size ≤ s.buffer.length + 1)) := by
  unfold OnEnd
  rw [if_neg (by rw [hsd]; simp), if_neg (by omega)]
  dsimp only
  have hlen : (s.buffer ++ [r]).length = s.buffer.length + 1 := by simp
  constructor
  · split_ifs <;> rfl
  · split_ifs with hcond
    · rw [hlen] at hcond
      exact iff_of_true rfl hcond
    · rw [hlen] at hcond
      exact iff_of_false (by simp) hcond

/-- Witness for C6 at a concrete state: the third record reaches half the
queue capacity, so the worker is notified. -/
theorem claim_C6_witness :
    sampleState.is_shutdown = false ∧
      sampleState.buffer.length < sampleState.max_queue_size ∧
      ((OnEnd sampleState (Recordable.spanData 3)).1.buffer =
          sampleState.buffer ++ [Recordable.spanData 3] ∧
        ((OnEnd sampleState (Recordable.spanData 3)).2 = true ↔
          (sampleState.max_queue_size / 2 ≤ sampleState.buffer.length + 1 ∨
            sampleState.max_export_batch_size ≤
              sampleState.buffer.length + 1))) :=
  ⟨rfl, by decide,
    claim_C6_wakeup_iff sampleState (Recordable.spanData 3) rfl (by decide)⟩

/-- Claim C7: the shutdown-time drain loop exits exactly when the buffer is
empty and no force flush is pending (immediate exit in that state), and on
exit the buffer is empty with no outstanding flush request (given a
positive export batch size, without which the loop never exits). -/
theorem claim_C7_drain (s : BatchState)
    (hbatch : 1 ≤ s.max_export_batch_size) :
    (s.buffer = [] ∧ s.is_force_flush_pending = false →
        DrainQueue s = s) ∧
      (DrainQueue s).buffer = [] ∧
      (DrainQueue s).is_force_flush_pending = false := by
  exact ⟨fun ⟨hb, hp⟩ => DrainQueue_id s hb hp,
    (DrainQueue_exit s hbatch).1, (DrainQueue_exit s hbatch).2⟩

/-- Witness for C7 at a concrete state with two buffered records. -/
theorem claim_C7_witness :
    1 ≤ sampleState.max_export_batch_size ∧
      ((sampleState.buffer = [] ∧
          sampleState.is_force_flush_pending = false →
          DrainQueue sampleState = sampleState) ∧
        (DrainQueue sampleState).buffer = [] ∧
        (DrainQueue sampleState).is_force_flush_pending = false) :=
  ⟨by decide, claim_C7_drain sampleState (by decide)⟩

/-- Claim C8: the in-memory exporter's `Shutdown` always returns true and is
idempotent, and after any `Shutdown` every subsequent sync `Export` returns
`kFailure` without adding any record to the store. -/
theorem claim_C8_inMemory_shutdown (e : InMemorySpanExporter)
    (batch : List Recordable) :
    (e.Shutdown).2 = true ∧
      (e.Shutdown).1.Shutdown = ((e.Shutdown).1, true) ∧
      (e.Shutdown).1.Export batch =
        ((e.Shutdown).1, ExportResult.kFailure) := by
  refine ⟨rfl, rfl, ?_⟩
  unfold InMemorySpanExporter.Export
  have hs : (e.Shutdown).1.is_shutdown = true := rfl
  rw [if_pos hs]

theorem foldl_filterMap_add (l : List Recordable) (d : InMemorySpanData) :
    l.foldl
        (fun d r =>
          match toSpanData r with
          | some span => d.Add span
          | none => d) d =
      (l.filterMap toSpanData).foldl InMemorySpanData.Add d := by
  induction l generalizing d with
  | nil => rfl
  | cons x xs ih =>
    cases x with
    | spanData p =>
      rw [List.foldl_cons, List.filterMap_cons]
      have h1 : toSpanData (Recordable.spanData p) = some p := rfl
      rw [h1]
      exact ih (d.Add p)
    | otherRecordable p =>
      rw [List.foldl_cons, List.filterMap_cons]
      have h1 : toSpanData (Recordable.otherRecordable p) = none := rfl
      rw [h1]
      exact ih d

/-- Claim C9: a sync `Export` on the in-memory exporter before shutdown adds
exactly the `SpanData` recordables of the batch to the store (in order),
silently discards the others, and returns `kSuccess` regardless of how many
were discarded. -/
theorem claim_C9_inMemory_export (e : InMemorySpanExporter)
    (batch : List Recordable) (h : e.is_shutdown = false) :
    (e.Export batch).2 = ExportResult.kSuccess ∧
      (e.Export batch).1.data =
        (batch.filterMap toSpanData).foldl InMemorySpanData.Add e.data ∧
      (e.Export batch).1.is_shutdown = false := by
  unfold InMemorySpanExporter.Export
  rw [if_neg (by rw [h]; simp)]
  exact ⟨rfl, foldl_filterMap_add batch e.data, h⟩

/-- Witness for C9 at a concrete exporter with a mixed batch: the non
`SpanData` recordable is discarded and the call succeeds. -/
theorem claim_C9_witness :
    sampleExporter.is_shutdown = false ∧
      ((sampleExporter.Export
            [Recordable.spanData 5, Recordable.otherRecordable 6]).2 =
          ExportResult.kSuccess ∧
        (sampleExporter.Export
              [Recordable.spanData 5, Recordable.otherRecordable 6]).1.data =
          (([Recordable.spanData 5,
              Recordable.otherRecordable 6].filterMap toSpanData).foldl
            InMemorySpanData.Add sampleExporter.data) ∧
        (sampleExporter.Export
              [Recordable.spanData 5, Recordable.otherRecordable 6]).1.is_shutdown =
          false) :=
  ⟨rfl, claim_C9_inMemory_export sampleExporter
    [Recordable.spanData 5, Recordable.otherRecordable 6] rfl⟩

/-- Claim C10: destroying a processor whose `is_shutdown` flag is still
false runs the full `Shutdown` procedure (the buffer is drained, the worker
joined, the exporter shut down exactly once); destroying one that is
already shut down does nothing. -/
theorem claim_C10_destructor (s : BatchState) :
    (s.is_shutdown = true → destructor s = s) ∧
      (s.is_shutdown = false → destructor s = (Shutdown s).1) ∧
      (s.is_shutdown = false → s.worker_joinable = true →
        1 ≤ s.max_export_batch_size →
        (destructor s).buffer = [] ∧
          (destructor s).is_shutdown = true ∧
          (destructor s).worker_joinable = false ∧
          (destructor s).exporter_shutdown_calls =
            s.exporter_shutdown_calls + 1) := by
  have hd : ∀ _ : s.is_shutdown = false, destructor s = (Shutdown s).1 := by
    intro h
    unfold destructor
    rw [if_pos h]
  refine ⟨?_, hd, ?_⟩
  · intro h
    unfold destructor
    rw [if_neg (by rw [h]; simp)]
  · intro h1 h2 h3
    rw [hd h1]
    obtain ⟨f1, f2⟩ := Shutdown_flags s
    refine ⟨Shutdown_buffer_drained s h2 h3, f1, f2, ?_⟩
    rw [Shutdown_calls_eq, if_neg (by rw [h1]; simp)]

/-- Witness for C10 at a concrete running state: the destructor drains the
buffer, joins the worker, and shuts the exporter down once. -/
theorem claim_C10_witness :
    sampleState.is_shutdown = false ∧
      sampleState.worker_joinable = true ∧
      1 ≤ sampleState.max_export_batch_size ∧
      ((destructor sampleState).buffer = [] ∧
        (destructor sampleState).is_shutdown = true ∧
        (destructor sampleState).worker_joinable = false ∧
        (destructor sampleState).exporter_shutdown_calls =
          sampleState.exporter_shutdown_calls + 1) :=
  ⟨rfl, rfl, by decide,
    (claim_C10_destructor sampleState).2.2 rfl rfl (by decide)⟩
